import Mathlib

/-
Verification of the mqtt2prometheus metric transformation engine
(pkg/metrics parser and pkg/config configuration resolver) against its
natural-language specification.

The Go source is shallowly embedded:
  * float64 values are modelled as rationals (the claims only exercise
    exact arithmetic and comparisons);
  * time.Time values are modelled as integers, with 0 standing for the
    Go zero time and 60 for one minute;
  * the external expr-lang library (expr.Compile / expr.Run) is modelled
    by a small AST over the variable surface the parser installs into the
    evaluation environment, with explicit compile-failure and
    runtime-failure cases;
  * the file system is modelled as a function from state-file identity to
    a read outcome, and the success of state writes as a boolean.
-/

namespace Mqtt2Prom

/-- Values arriving from MQTT, modelling the Go interface-typed `value`
argument of `parseMetric`: booleans, strings, float64 numbers, the nil
interface, and a stand-in for any other unsupported type. -/
inductive MqttValue : Type
  | nilV : MqttValue
  | boolV : Bool → MqttValue
  | strV : String → MqttValue
  | numV : ℚ → MqttValue
  | otherV : MqttValue
deriving DecidableEq, Repr

/-- Programs of the embedded expression language, modelling the compiled
programs of the external expr-lang library over the variable surface that
the parser binds in the evaluation environment (`raw_value`, `value`,
`last_value`, `last_raw_value`, `last_result`), together with constants,
addition, and an explicit runtime-failure program. -/
inductive ExprProg : Type
  | const : ℚ → ExprProg
  | varValue : ExprProg
  | varRawValue : ExprProg
  | varLastValue : ExprProg
  | varLastRawValue : ExprProg
  | varLastResult : ExprProg
  | add : ExprProg → ExprProg → ExprProg
  | failRun : ExprProg
deriving DecidableEq, Repr

/-- Source text of an expression as it appears in the configuration,
modelling a Go expression string: a flag saying whether expr.Compile
succeeds on it and, when it does, the compiled program. -/
structure ExprSrc : Type where
  compileOk : Bool
  prog : ExprProg
deriving DecidableEq, Repr

/-- The evaluation environment `ms.env`, modelling the
map[string]interface of the Go code. In the Go default environment the
key last_raw_value is absent until the parser sets it; absence is
modelled as the nil value. The last_result key may hold a float (value
expressions) or a string (label expressions), hence `MqttValue`. -/
structure ExprEnv : Type where
  raw_value : MqttValue := .nilV
  value : ℚ := 0
  last_value : ℚ := 0
  last_raw_value : MqttValue := .nilV
  last_result : MqttValue := .numV 0
  elapsed : Int := 0
deriving DecidableEq, Repr

/-- defaultExprEnv of the Go code: raw_value nil, value 0, last_value 0,
last_result 0.0, elapsed 0 (the function entries of the Go map are not
modelled because the program AST has no calls). -/
def defaultExprEnv : ExprEnv := {}

/-- Numeric view of an environment value, modelling the implicit
requirement of expr-lang arithmetic that the variable hold a number. -/
def asNum : MqttValue → Option ℚ
  | .numV q => some q
  | _ => none

/-- Run a compiled program in an environment, modelling expr.Run: a
failing program (or a non-numeric variable used numerically) is a
runtime evaluation error, returned as none. -/
def evalProg : ExprProg → ExprEnv → Option ℚ
  | .const q, _ => some q
  | .varValue, env => some env.value
  | .varRawValue, env => asNum env.raw_value
  | .varLastValue, env => some env.last_value
  | .varLastRawValue, env => asNum env.last_raw_value
  | .varLastResult, env => asNum env.last_result
  | .add a b, env => (evalProg a env).bind fun x => (evalProg b env).map fun y => x + y
  | .failRun, _ => none

/-- dynamicState of the Go code: the durable per-metric state record. -/
structure DynState : Type where
  Offset : ℚ := 0
  LastRawValue : ℚ := 0
  LastExprValue : ℚ := 0
  LastExprRawValue : MqttValue := .nilV
  LastExprResult : ℚ := 0
  LastExprResultString : String := ""
  LastExprTimestamp : Int := 0
deriving DecidableEq, Repr

/-- metricState of the Go code: durable dynamic state plus the in-memory
last-written timestamp, cached compiled program and environment. -/
structure MetricState : Type where
  dynamic : DynState := {}
  lastWritten : Int := 0
  program : Option ExprProg := none
  env : ExprEnv := {}
deriving DecidableEq, Repr

/-- The p.states map of the Parser, as an association list. -/
abbrev StatesMap := List (String × MetricState)

/-- Parser state: the per-metric state cache (the other Parser fields,
separator and the config index, do not participate in the claims). -/
structure ParserState : Type where
  states : StatesMap := []
deriving DecidableEq, Repr

/-- Lookup in the states map. -/
def lookupState : StatesMap → String → Option MetricState
  | [], _ => none
  | (k, v) :: rest, id => if k = id then some v else lookupState rest id

/-- Go map assignment p.states[id] = st. -/
def setState (m : StatesMap) (id : String) (st : MetricState) : StatesMap :=
  (id, st) :: m.filter fun p => p.1 != id

/-- Outcome of opening and reading a state file, modelling the file
system underneath readMetricState: the file may be absent, unopenable,
hold a well-formed serialized dynamic state, or hold bytes on which yaml
unmarshalling fails. -/
inductive ReadResult : Type
  | notExist : ReadResult
  | openError : ReadResult
  | content : DynState → ReadResult
  | corrupt : ReadResult
deriving DecidableEq, Repr

/-- The file system as seen by state reads: state-file identity to
read outcome. -/
abbrev FS := String → ReadResult

/-- readMetricState: a missing file yields the empty state without
error; a failure to open the file is an error; readable well-formed
content yields that state with lastWritten set to now; content on which
unmarshalling fails is an error. -/
def readMetricState (fs : FS) (now : Int) (metricID : String) :
    Except String MetricState :=
  match fs metricID with
  | .notExist => .ok {}
  | .openError => .error ("failed to read file " ++ metricID)
  | .content d => .ok { dynamic := d, lastWritten := now }
  | .corrupt => .error ("yaml unmarshal error in " ++ metricID)

/-- getMetricState: return the cached state, reading it from disk on
first access (read errors propagate); then, if at least a minute passed
since the last write (the zero time forcing this), write the state back,
a write failure being returned as the error result alongside the state
(callers treat it as a failure). `writeOk` models whether the disk write
succeeds. -/
def getMetricState (fs : FS) (writeOk : Bool) (now : Int)
    (ps : ParserState) (metricID : String) :
    ParserState × Except String MetricState :=
  match lookupState ps.states metricID with
  | some st =>
    if 60 ≤ now - st.lastWritten then
      if writeOk then
        let st' := { st with lastWritten := now }
        ({ states := setState ps.states metricID st' }, .ok st')
      else (ps, .error ("failed to write file " ++ metricID))
    else (ps, .ok st)
  | none =>
    match readMetricState fs now metricID with
    | .error e => (ps, .error e)
    | .ok st =>
      let ps' : ParserState := { states := setState ps.states metricID st }
      if 60 ≤ now - st.lastWritten then
        if writeOk then
          let st' := { st with lastWritten := now }
          ({ states := setState ps'.states metricID st' }, .ok st')
        else (ps', .error ("failed to write file " ++ metricID))
      else (ps', .ok st)

/-- The pure core of enforceMonotonicy on the dynamic state: when the
value is below the stored LastRawValue the previous LastRawValue is
accumulated into the offset; LastRawValue becomes the raw value; the
result is the value plus the (possibly grown) offset. -/
def enforceMonoStep (d : DynState) (value : ℚ) : DynState × ℚ :=
  let offset := if value < d.LastRawValue then d.Offset + d.LastRawValue else d.Offset
  ({ d with Offset := offset, LastRawValue := value }, value + offset)

/-- enforceMonotonicy: load the metric state (errors propagate), apply
the monotonic correction, and on a detected reset clear lastWritten to
the zero time so the next access flushes the state. -/
def enforceMonotonicy (fs : FS) (writeOk : Bool) (now : Int)
    (ps : ParserState) (metricID : String) (value : ℚ) :
    ParserState × Except String ℚ :=
  match getMetricState fs writeOk now ps metricID with
  | (ps', .error e) => (ps', .error e)
  | (ps', .ok ms) =>
    let p := enforceMonoStep ms.dynamic value
    let lw := if value < ms.dynamic.LastRawValue then 0 else ms.lastWritten
    ({ states := setState ps'.states metricID { ms with dynamic := p.1, lastWritten := lw } },
     .ok p.2)

/-- Shared tail of evalExpressionValue: run the program in the state's
stored environment; on success update the durable expression snapshot
(LastExprResult, LastExprRawValue, LastExprValue, LastExprTimestamp). -/
def runValueProgram (ps : ParserState) (metricID : String) (ms : MetricState)
    (prog : ExprProg) (raw : MqttValue) (value : ℚ) (now : Int) :
    ParserState × Except String ℚ :=
  match evalProg prog ms.env with
  | none =>
    ({ states := setState ps.states metricID ms }, .error "failed to evaluate expression")
  | some ret =>
    let ms' := { ms with dynamic := { ms.dynamic with
        LastExprResult := ret, LastExprRawValue := raw,
        LastExprValue := value, LastExprTimestamp := now } }
    ({ states := setState ps.states metricID ms' }, .ok ret)

/-- evalExpressionValue: load the metric state (errors propagate). Only
when no compiled program is cached yet, build a fresh environment and
bind raw_value, value, last_value, last_raw_value, last_result and
elapsed from the current inputs and the durable snapshot, then compile
(a compile failure is an error, leaving the environment stored); when a
program is already cached, the stored environment is reused unchanged.
Finally run the program. -/
def evalExpressionValue (fs : FS) (writeOk : Bool) (now : Int)
    (ps : ParserState) (metricID : String) (code : ExprSrc)
    (raw : MqttValue) (value : ℚ) : ParserState × Except String ℚ :=
  match getMetricState fs writeOk now ps metricID with
  | (ps', .error e) => (ps', .error e)
  | (ps', .ok ms0) =>
    match ms0.program with
    | some prog => runValueProgram ps' metricID ms0 prog raw value now
    | none =>
      let env : ExprEnv :=
        { raw_value := raw, value := value,
          last_value := ms0.dynamic.LastExprValue,
          last_raw_value := ms0.dynamic.LastExprRawValue,
          last_result := .numV ms0.dynamic.LastExprResult,
          elapsed := if ms0.dynamic.LastExprTimestamp = 0 then 0
                     else now - ms0.dynamic.LastExprTimestamp }
      if code.compileOk then
        runValueProgram ps' metricID
          { ms0 with env := env, program := some code.prog, lastWritten := 0 }
          code.prog raw value now
      else
        ({ states := setState ps'.states metricID { ms0 with env := env } },
         .error "failed to compile expression")

/-- Fuel-driven digit extraction for the decimal representation of a
natural number. -/
def natReprGo : Nat → Nat → String → String
  | 0, _, acc => acc
  | fuel + 1, n, acc =>
    let acc' := String.mk [Char.ofNat (48 + n % 10)] ++ acc
    if n < 10 then acc' else natReprGo fuel (n / 10) acc'

/-- Decimal representation of a natural number. -/
def natReprQ (n : Nat) : String := natReprGo (n + 1) n ""

/-- Decimal representation of an integer. -/
def intReprQ : Int → String
  | .ofNat n => natReprQ n
  | .negSucc n => "-" ++ natReprQ (n + 1)

/-- Canonical string conversion of a label-expression result, modelling
fmt.Sprint on the numbers the embedded programs produce. -/
def fmtSprint (q : ℚ) : String :=
  if q.den = 1 then intReprQ q.num else intReprQ q.num ++ "/" ++ natReprQ q.den

/-- Shared tail of evalExpressionLabel: unlike the value path, the
bindings are refreshed in the stored environment on every call before
the program runs; on success the textual snapshot is updated. -/
def runLabelProgram (ps : ParserState) (sid : String) (ms : MetricState)
    (prog : ExprProg) (raw : MqttValue) (value : ℚ) (now : Int) :
    ParserState × Except String String :=
  let env := { ms.env with
    raw_value := raw, value := value,
    last_value := ms.dynamic.LastExprValue,
    last_raw_value := ms.dynamic.LastExprRawValue,
    last_result := .strV ms.dynamic.LastExprResultString,
    elapsed := if ms.dynamic.LastExprTimestamp = 0 then 0
               else now - ms.dynamic.LastExprTimestamp }
  let ms1 := { ms with env := env }
  match evalProg prog env with
  | none =>
    ({ states := setState ps.states sid ms1 },
     .error "failed to evaluate dynamic label expression")
  | some r =>
    let ret := fmtSprint r
    let ms2 := { ms1 with dynamic := { ms1.dynamic with
        LastExprResultString := ret, LastExprValue := value, LastExprTimestamp := now } }
    ({ states := setState ps.states sid ms2 }, .ok ret)

/-- evalExpressionLabel: state identity is the label name joined to the
metric identity; compilation happens once against the default
environment (a compile failure is an error); the environment bindings
are then refreshed on every call before running. -/
def evalExpressionLabel (fs : FS) (writeOk : Bool) (now : Int)
    (ps : ParserState) (metricID label : String) (code : ExprSrc)
    (raw : MqttValue) (value : ℚ) : ParserState × Except String String :=
  let sid := label ++ "@" ++ metricID
  match getMetricState fs writeOk now ps sid with
  | (ps', .error e) => (ps', .error e)
  | (ps', .ok ms0) =>
    match ms0.program with
    | some prog => runLabelProgram ps' sid ms0 prog raw value now
    | none =>
      if code.compileOk then
        runLabelProgram ps' sid
          { ms0 with env := defaultExprEnv, program := some code.prog, lastWritten := 0 }
          code.prog raw value now
      else
        ({ states := setState ps'.states sid { ms0 with env := defaultExprEnv } },
         .error "failed to compile dynamic label expression")

/-- StringValueMappingConfig of pkg/config: a deprecated error value and
the string-to-float map (modelled as an association list, Go maps being
unordered and key-unique). -/
structure StringValueMappingConfig : Type where
  ErrorValue : Option ℚ := none
  Map : List (String × ℚ) := []
deriving DecidableEq, Repr

/-- MetricConfig of pkg/config, with the same fields in the same order.
Regexp-valued fields are modelled by their pattern strings; expression
strings are modelled by ExprSrc, the empty Go string becoming none;
pointer fields become Option; maps become association lists. Each
default below is the Go zero value of the field, which is what the
reflection-based merge of LoadConfig tests with IsZero. -/
structure MetricConfig : Type where
  PrometheusName : String := ""
  MQTTName : String := ""
  PayloadField : String := ""
  SensorNameFilter : String := ""
  TopicPathFilter : Option String := none
  Help : String := ""
  ValueType : String := ""
  OmitTimestamp : Bool := false
  RawExpression : Option ExprSrc := none
  Expression : Option ExprSrc := none
  ForceMonotonicy : Bool := false
  ConstantLabels : List (String × String) := []
  DynamicLabels : List (String × ExprSrc) := []
  StringValueMapping : Option StringValueMappingConfig := none
  MQTTValueScale : ℚ := 0
  ErrorValue : Option ℚ := none
deriving DecidableEq, Repr

/-- BlockConfig of pkg/config: one shared fragment and the concrete
metric fragments of the block. -/
structure BlockConfig : Type where
  SharedValues : MetricConfig := {}
  Metrics : List MetricConfig := []
deriving DecidableEq, Repr

/-- One reflection step of the LoadConfig merge loop for a single field:
the destination keeps its value unless it is the zero value of the field
and the source value is non-zero, in which case the source value is
copied. The Go code additionally requires the two fields to have the
same type, which holds automatically here because both fragments are
values of the one MetricConfig structure. -/
def mergeField {α : Type} [DecidableEq α] (dst src z : α) : α :=
  if dst = z ∧ src ≠ z then src else dst

/-- The per-fragment body of the LoadConfig merge loop: every field of
the destination fragment is merged with the corresponding field of the
source fragment, the zero used being the Go zero value of the field. -/
def mergeMetricConfig (dst src : MetricConfig) : MetricConfig where
  PrometheusName := mergeField dst.PrometheusName src.PrometheusName ""
  MQTTName := mergeField dst.MQTTName src.MQTTName ""
  PayloadField := mergeField dst.PayloadField src.PayloadField ""
  SensorNameFilter := mergeField dst.SensorNameFilter src.SensorNameFilter ""
  TopicPathFilter := mergeField dst.TopicPathFilter src.TopicPathFilter none
  Help := mergeField dst.Help src.Help ""
  ValueType := mergeField dst.ValueType src.ValueType ""
  OmitTimestamp := mergeField dst.OmitTimestamp src.OmitTimestamp false
  RawExpression := mergeField dst.RawExpression src.RawExpression none
  Expression := mergeField dst.Expression src.Expression none
  ForceMonotonicy := mergeField dst.ForceMonotonicy src.ForceMonotonicy false
  ConstantLabels := mergeField dst.ConstantLabels src.ConstantLabels []
  DynamicLabels := mergeField dst.DynamicLabels src.DynamicLabels []
  StringValueMapping := mergeField dst.StringValueMapping src.StringValueMapping none
  MQTTValueScale := mergeField dst.MQTTValueScale src.MQTTValueScale 0
  ErrorValue := mergeField dst.ErrorValue src.ErrorValue none

/-- MetricConfigDefaults of pkg/config: only the topic path filter is
set, to the match-everything pattern. -/
def metricConfigDefaults : MetricConfig := { TopicPathFilter := some ".*" }

/-- Resolution of one concrete fragment: LoadConfig merges the sources
in the order shared fragment first, then the global defaults. -/
def resolveMetric (shared m : MetricConfig) : MetricConfig :=
  mergeMetricConfig (mergeMetricConfig m shared) metricConfigDefaults

/-- The merge loop of LoadConfig over all blocks. -/
def mergeBlocks (blocks : List BlockConfig) : List BlockConfig :=
  blocks.map fun b => { b with Metrics := b.Metrics.map (resolveMetric b.SharedValues) }

/-- Tail of the per-metric validation of LoadConfig: default an omitted
mqtt_name to the prometheus name, then reject a rule carrying both
expression and raw_expression. The error text names the rule with the
pre-default names, as the Go code formats it from the loop copy. -/
def validateMetricRest (m : MetricConfig) : Except String MetricConfig :=
  let m' := if m.MQTTName = "" then { m with MQTTName := m.PrometheusName } else m
  if m.Expression.isSome ∧ m.RawExpression.isSome then
    .error ("metric " ++ m.MQTTName ++ "/" ++ m.PrometheusName ++
      ": expression and raw_expression are mutually exclusive.")
  else .ok m'

/-- The per-metric validation of LoadConfig: first the conflict between
the deprecated string_value_mapping.error_value and the metric-level
error_value (a mere deprecation warning when only the former is set),
then the remaining checks. -/
def validateMetric (m : MetricConfig) : Except String MetricConfig :=
  match m.StringValueMapping with
  | some svm =>
    match svm.ErrorValue with
    | some _ =>
      match m.ErrorValue with
      | some _ =>
        .error ("metric " ++ m.MQTTName ++ "/" ++ m.PrometheusName ++
          ": cannot set both string_value_mapping.error_value and error_value")
      | none => validateMetricRest m
    | none => validateMetricRest m
  | none => validateMetricRest m

/-- The validation loop of LoadConfig over the metrics of one block, in
order, the first violation aborting the load. -/
def validateMetrics : List MetricConfig → Except String (List MetricConfig)
  | [] => .ok []
  | m :: rest =>
    match validateMetric m with
    | .error e => .error e
    | .ok m' =>
      match validateMetrics rest with
      | .error e => .error e
      | .ok rest' => .ok (m' :: rest')

/-- The validation loop of LoadConfig over all blocks. -/
def validateBlocks : List BlockConfig → Except String (List BlockConfig)
  | [] => .ok []
  | b :: rest =>
    match validateMetrics b.Metrics with
    | .error e => .error e
    | .ok ms =>
      match validateBlocks rest with
      | .error e => .error e
      | .ok rest' => .ok ({ b with Metrics := ms } :: rest')

/-- The metric part of LoadConfig after yaml decoding: merge the default
chain into every concrete fragment, then validate; an error yields no
rule set. Directory creation for monotonic metrics is external I/O after
validation and is not modelled. -/
def loadMetricsConfig (blocks : List BlockConfig) : Except String (List BlockConfig) :=
  validateBlocks (mergeBlocks blocks)

/-- DynamicLabelsKeys of pkg/config: the configured dynamic label names
in sorted order (sort.Strings over the map keys). -/
def dynamicLabelsKeys (cfg : MetricConfig) : List String :=
  List.insertionSort (fun a b => a ≤ b) (cfg.DynamicLabels.map Prod.fst)

/-- Prometheus value kinds, modelling prometheus.ValueType. -/
inductive PromValueType : Type
  | gauge : PromValueType
  | counter : PromValueType
  | untyped : PromValueType
deriving DecidableEq, Repr

/-- PrometheusValueType of pkg/config. -/
def prometheusValueType (cfg : MetricConfig) : PromValueType :=
  if cfg.ValueType = "gauge" then .gauge
  else if cfg.ValueType = "counter" then .counter
  else .untyped

/-- The Metric record returned by parseMetric: value, value kind, ingest
time, dynamic labels and their ordered key list, and the description
inputs (the prometheus.Desc itself is external; its name and help inputs
are kept). -/
structure Metric : Type where
  DescriptionName : String := ""
  DescriptionHelp : String := ""
  Value : ℚ := 0
  ValueType : PromValueType := .untyped
  IngestTime : Int := 0
  Labels : List (String × String) := []
  LabelsKeys : List String := []
deriving DecidableEq, Repr

/-- Decimal-string parsing, modelling the strconv.ParseFloat calls of
the parser on the inputs the claims exercise: an optional minus sign,
digits, and an optional fractional part (the full Go syntax with
exponents and infinities is not needed by any claim). -/
def parseFloatQ (s : String) : Option ℚ :=
  let core (t : String) : Option ℚ :=
    match t.splitOn "." with
    | [a] => (a.toNat?).map fun n => (n : ℚ)
    | [a, b] =>
      match a.toNat?, b.toNat? with
      | some n, some f => some ((n : ℚ) + (f : ℚ) / ((10 : ℚ) ^ b.length))
      | _, _ => none
    | _ => none
  if s.startsWith "-" then (core (s.drop 1)).map Neg.neg else core s

/-- The per-step errorValue fallback of parseMetric: a failed step is
replaced by the configured fallback value when one is present, otherwise
the error stands. -/
def applyErrorValue (ev : Option ℚ) (r : Except String ℚ) : Except String ℚ :=
  match r with
  | .ok v => .ok v
  | .error e =>
    match ev with
    | some x => .ok x
    | none => .error e

/-- The type-resolution step of parseMetric for the non-raw-expression
path: booleans map to 1 and 0; strings go through the string-value map
when configured (missing entries falling back to the deprecated mapping
error value, then the metric error value, then failing) and are parsed
as floats otherwise (unparsable strings falling back to the metric error
value or failing); numbers pass through; any other payload falls back to
the metric error value or fails. -/
def coerceValue (cfg : MetricConfig) (value : MqttValue) : Except String ℚ :=
  match value with
  | .boolV b => .ok (if b then 1 else 0)
  | .strV s =>
    match cfg.StringValueMapping with
    | some svm =>
      match List.lookup s svm.Map with
      | some f => .ok f
      | none =>
        match svm.ErrorValue with
        | some e => .ok e
        | none =>
          match cfg.ErrorValue with
          | some e => .ok e
          | none => .error ("got unexpected string data " ++ s)
    | none =>
      match parseFloatQ s with
      | some f => .ok f
      | none =>
        match cfg.ErrorValue with
        | some e => .ok e
        | none => .error "got data with unexpected type and failed to parse to float"
  | .numV f => .ok f
  | _ =>
    match cfg.ErrorValue with
    | some e => .ok e
    | none => .error "got data with unexpected type"

/-- The value-derivation part of parseMetric: a configured
raw_expression is evaluated directly on the raw input (the working value
starting at zero) with any failure maskable by error_value; otherwise
the raw input is coerced and the optional post-coercion expression is
evaluated, again maskable by error_value. -/
def computeValue (fs : FS) (writeOk : Bool) (now : Int) (ps : ParserState)
    (cfg : MetricConfig) (metricID : String) (value : MqttValue) :
    ParserState × Except String ℚ :=
  match cfg.RawExpression with
  | some src =>
    let r := evalExpressionValue fs writeOk now ps metricID src value 0
    (r.1, applyErrorValue cfg.ErrorValue r.2)
  | none =>
    match coerceValue cfg value with
    | .error e => (ps, .error e)
    | .ok mv =>
      match cfg.Expression with
      | some src =>
        let r := evalExpressionValue fs writeOk now ps metricID src value mv
        (r.1, applyErrorValue cfg.ErrorValue r.2)
      | none => (ps, .ok mv)

/-- Value derivation followed by the optional monotonicity step, whose
failure is again maskable by error_value. -/
def computeValueMono (fs : FS) (writeOk : Bool) (now : Int) (ps : ParserState)
    (cfg : MetricConfig) (metricID : String) (value : MqttValue) :
    ParserState × Except String ℚ :=
  match computeValue fs writeOk now ps cfg metricID value with
  | (ps', .error e) => (ps', .error e)
  | (ps', .ok mv) =>
    if cfg.ForceMonotonicy then
      let r := enforceMonotonicy fs writeOk now ps' metricID mv
      (r.1, applyErrorValue cfg.ErrorValue r.2)
    else (ps', .ok mv)

/-- The dynamic-label loop of parseMetric: each configured label
expression is evaluated against the raw input and the final working
value; the first failure aborts with its error, with no errorValue
fallback. -/
def evalLabels (fs : FS) (writeOk : Bool) (now : Int) :
    ParserState → String → List (String × ExprSrc) → MqttValue → ℚ →
    ParserState × Except String (List (String × String))
  | ps, _, [], _, _ => (ps, .ok [])
  | ps, metricID, (k, src) :: rest, raw, mv =>
    match evalExpressionLabel fs writeOk now ps metricID k src raw mv with
    | (ps', .error e) => (ps', .error e)
    | (ps', .ok v) =>
      match evalLabels fs writeOk now ps' metricID rest raw mv with
      | (ps'', .error e) => (ps'', .error e)
      | (ps'', .ok l) => (ps'', .ok ((k, v) :: l))

/-- parseMetric: derive the working value (type resolution, optional
expression, optional monotonicity, each maskable by error_value), apply
the optional scale factor, stamp the ingest time unless omitted,
evaluate the dynamic labels, and assemble the Metric record with the
sorted dynamic label key list. -/
def parseMetric (fs : FS) (writeOk : Bool) (now : Int) (ps : ParserState)
    (cfg : MetricConfig) (metricID : String) (value : MqttValue) :
    ParserState × Except String Metric :=
  match computeValueMono fs writeOk now ps cfg metricID value with
  | (ps', .error e) => (ps', .error e)
  | (ps', .ok mv0) =>
    let mv := if cfg.MQTTValueScale ≠ 0 then mv0 * cfg.MQTTValueScale else mv0
    let ingestTime : Int := if cfg.OmitTimestamp then 0 else now
    match evalLabels fs writeOk now ps' metricID cfg.DynamicLabels value mv with
    | (ps'', .error e) => (ps'', .error e)
    | (ps'', .ok ls) =>
      (ps'', .ok
        { DescriptionName := cfg.PrometheusName
          DescriptionHelp := cfg.Help
          Value := mv
          ValueType := prometheusValueType cfg
          IngestTime := ingestTime
          Labels := ls
          LabelsKeys := dynamicLabelsKeys cfg })

/-- Trace of repeated monotonicity enforcement on the dynamic state:
for each input, the returned value and the offset in force after the
step. -/
def monoTrace : DynState → List ℚ → List (ℚ × ℚ)
  | _, [] => []
  | d, v :: vs =>
    let p := enforceMonoStep d v
    (p.2, p.1.Offset) :: monoTrace p.1 vs

/-- The behaviour all four merge-claim cases require of a single field:
a set concrete field wins; an unset concrete field inherits from the
shared fragment when that is set, else from the default fragment; and a
zero shared field never overwrites the concrete field. -/
abbrev MergeFieldSpec {α : Type} [DecidableEq α] (c s d z r : α) : Prop :=
  (c ≠ z → r = c) ∧
  (c = z → s ≠ z → r = s) ∧
  (c = z → s = z → r = d) ∧
  (s = z → mergeField c s z = c)

/-- A file system with no state files. -/
def fsEmpty : FS := fun _ => .notExist

/-- A file system on which every state file exists but cannot be
opened. -/
def fsOpenErr : FS := fun _ => .openError

/-- A rule that only forces monotonicity. -/
def cfgMono : MetricConfig := { ForceMonotonicy := true }

/-- The four-step monotonicity pipeline run of the specification on the
raw values 10, 20, 15, 25. -/
def c1r1 : ParserState × Except String Metric :=
  parseMetric fsEmpty true 1000 {} cfgMono "m" (.numV 10)
def c1r2 : ParserState × Except String Metric :=
  parseMetric fsEmpty true 1000 c1r1.1 cfgMono "m" (.numV 20)
def c1r3 : ParserState × Except String Metric :=
  parseMetric fsEmpty true 1000 c1r2.1 cfgMono "m" (.numV 15)
def c1r4 : ParserState × Except String Metric :=
  parseMetric fsEmpty true 1000 c1r3.1 cfgMono "m" (.numV 25)

/-- An expression that compiles and returns the raw_value binding. -/
def srcRawVar : ExprSrc := { compileOk := true, prog := .varRawValue }

/-- An expression that compiles and returns the constant 1. -/
def srcOne : ExprSrc := { compileOk := true, prog := .const 1 }

/-- An expression that compiles but fails at runtime. -/
def srcFailRun : ExprSrc := { compileOk := true, prog := .failRun }

/-- An expression on which compilation fails. -/
def srcNoCompile : ExprSrc := { compileOk := false, prog := .const 0 }

/-- Two consecutive value-expression evaluations of the same rule with
different raw inputs, 5 then 7. -/
def c2e1 : ParserState × Except String ℚ :=
  evalExpressionValue fsEmpty true 1000 {} "m" srcRawVar (.numV 5) 0
def c2e2 : ParserState × Except String ℚ :=
  evalExpressionValue fsEmpty true 1000 c2e1.1 "m" srcRawVar (.numV 7) 0

/-- A cached metric state whose compiled program reads raw_value and
whose stored environment still binds raw_value to 5. -/
def c2ms : MetricState :=
  { program := some .varRawValue, env := { raw_value := .numV 5 }, lastWritten := 1000 }

/-- A parser state caching c2ms under the identity m. -/
def c2ps : ParserState := { states := [("m", c2ms)] }

/-- A rule whose raw expression does not compile, with a fallback. -/
def cfgC3 : MetricConfig :=
  { RawExpression := some srcNoCompile, ErrorValue := some (-1) }

/-- A second such rule, used to exercise the amended statement. -/
def cfgC3w : MetricConfig :=
  { RawExpression := some srcNoCompile, ErrorValue := some 7, OmitTimestamp := true }

/-- A rule with a fallback and a dynamic label whose expression fails at
runtime. -/
def cfgC4 : MetricConfig :=
  { ErrorValue := some 0, DynamicLabels := [("l", srcFailRun)] }

/-- A rule with a fallback whose raw expression fails at runtime. -/
def cfgC4i : MetricConfig :=
  { RawExpression := some srcFailRun, ErrorValue := some 2 }

/-- A monotonic rule with a fallback. -/
def cfgC4ii : MetricConfig :=
  { ForceMonotonicy := true, ErrorValue := some 3 }

/-- A rule with a fallback and a failing dynamic label expression. -/
def cfgC4iii : MetricConfig :=
  { ErrorValue := some 4, DynamicLabels := [("k", srcFailRun)] }

/-- A parser state caching an empty metric state (lastWritten at the
zero time, so the next access triggers a flush). -/
def c5ps : ParserState := { states := [("m", {})] }

/-- The string-mapping rule of the specification example. -/
def cfgC8 : MetricConfig :=
  { StringValueMapping := some { Map := [("STOPPED", 0), ("RUNNING", 1)] } }

/-- The same rule with the fallback value -1. -/
def cfgC8e : MetricConfig := { cfgC8 with ErrorValue := some (-1) }

/-- A rule with two dynamic labels configured in unsorted order. -/
def cfgC10 : MetricConfig :=
  { DynamicLabels := [("b", srcOne), ("a", srcOne)] }

/-- The record produced by running cfgC10 on the numeric input 2 against
an empty state. -/
def c10m : Metric :=
  { Value := 2, IngestTime := 1000, Labels := [("b", "1"), ("a", "1")],
    LabelsKeys := ["a", "b"] }

/-- Concrete fragments for the merge claim. -/
def c6c : MetricConfig := { MQTTName := "m" }
def c6s : MetricConfig := { PrometheusName := "p", MQTTName := "x" }

/-- A dynamic state recording 20 as the last raw value. -/
def dC1 : DynState := { LastRawValue := 20 }

/-- A block whose single rule carries both expression kinds. -/
def blocksC7 : List BlockConfig :=
  [{ SharedValues := {},
     Metrics := [{ PrometheusName := "p1", MQTTName := "m1",
                   Expression := some srcOne, RawExpression := some srcOne }] }]

theorem lookup_setState (m : StatesMap) (k : String) (v : MetricState) :
    lookupState (setState m k v) k = some v := by
  simp [setState, lookupState]

theorem mergeField_cases {α : Type} [DecidableEq α] (c s d z : α) :
    MergeFieldSpec c s d z (mergeField (mergeField c s z) d z) := by
  refine ⟨fun hc => ?_, fun hc hs => ?_, fun hc hs => ?_, fun hs => ?_⟩
  · simp [mergeField, hc]
  · simp [mergeField, hc, hs]
  · rcases eq_or_ne d z with hd | hd
    · simp [mergeField, hc, hs, hd]
    · simp [mergeField, hc, hs, hd]
  · simp [mergeField, hs]

theorem enforceMonoStep_out (d : DynState) (v : ℚ) :
    (enforceMonoStep d v).2 = v + (enforceMonoStep d v).1.Offset := rfl

theorem enforceMonoStep_lrv (d : DynState) (v : ℚ) :
    (enforceMonoStep d v).1.LastRawValue = v := rfl

theorem enforceMonoStep_offset_le (d : DynState) (v : ℚ) (h : 0 ≤ d.LastRawValue) :
    d.Offset ≤ (enforceMonoStep d v).1.Offset := by
  by_cases hv : v < d.LastRawValue
  · simp only [enforceMonoStep, if_pos hv]
    linarith
  · simp [enforceMonoStep, hv]

theorem enforceMonoStep_offset_nonneg (d : DynState) (v : ℚ)
    (h1 : 0 ≤ d.Offset) (h2 : 0 ≤ d.LastRawValue) :
    0 ≤ (enforceMonoStep d v).1.Offset :=
  le_trans h1 (enforceMonoStep_offset_le d v h2)

theorem enforceMonoStep_out_ge (d : DynState) (v : ℚ) (hv : 0 ≤ v) :
    d.LastRawValue + d.Offset ≤ (enforceMonoStep d v).2 := by
  by_cases h : v < d.LastRawValue <;> simp [enforceMonoStep, h] <;> linarith

/-- C1: with forceMonotonicy, the pipeline maps the raw inputs
10, 20, 15, 25 to the outputs 10, 20, 35, 45; and in general one
monotonicity step on a working value below the stored lastRawValue adds
that lastRawValue to the offset, stores the working value as the new
lastRawValue, and returns the working value plus the updated offset,
while a non-decreasing working value leaves the offset unchanged. -/
theorem C1_force_monotonicy_pipeline :
    (c1r1.2.toOption.map Metric.Value = some 10 ∧
     c1r2.2.toOption.map Metric.Value = some 20 ∧
     c1r3.2.toOption.map Metric.Value = some 35 ∧
     c1r4.2.toOption.map Metric.Value = some 45) ∧
    (∀ (d : DynState) (v : ℚ),
      (v < d.LastRawValue →
        enforceMonoStep d v =
          ({ d with Offset := d.Offset + d.LastRawValue, LastRawValue := v },
           v + (d.Offset + d.LastRawValue))) ∧
      (¬ v < d.LastRawValue →
        enforceMonoStep d v = ({ d with LastRawValue := v }, v + d.Offset))) := by
  constructor
  · norm_num +decide [c1r1, c1r2, c1r3, c1r4, parseMetric, computeValueMono, computeValue,
      coerceValue, enforceMonotonicy, enforceMonoStep, getMetricState, readMetricState,
      lookupState, setState, evalLabels, applyErrorValue, dynamicLabelsKeys,
      prometheusValueType, fsEmpty, cfgMono]
  · intro d v
    constructor <;> intro h <;> simp [enforceMonoStep, h]

theorem C1_force_monotonicy_pipeline_witness :
    enforceMonoStep dC1 15 =
      ({ dC1 with Offset := dC1.Offset + dC1.LastRawValue, LastRawValue := 15 },
       15 + (dC1.Offset + dC1.LastRawValue)) :=
  (C1_force_monotonicy_pipeline.2 dC1 15).1 (by norm_num [dC1])

/-- C8: with the map STOPPED to 0 and RUNNING to 1, the string input
RUNNING yields the metric value 1; the unmapped input UNKNOWN fails when
no errorValue is configured; and with errorValue -1 it yields -1. -/
theorem C8_string_value_mapping :
    (parseMetric fsEmpty true 1000 {} cfgC8 "m" (.strV "RUNNING")).2.toOption.map Metric.Value
        = some 1 ∧
    (parseMetric fsEmpty true 1000 {} cfgC8 "m" (.strV "UNKNOWN")).2
        = .error "got unexpected string data UNKNOWN" ∧
    (parseMetric fsEmpty true 1000 {} cfgC8e "m" (.strV "UNKNOWN")).2.toOption.map Metric.Value
        = some (-1) :=
  ⟨rfl, rfl, rfl⟩

/-- C9: from a state with non-negative offset and lastRawValue, feeding
any sequence of non-negative values through the monotonicity step yields
a non-decreasing output sequence, the offsets never shrink, and every
output is its input plus the offset in force after its step. -/
theorem C9_monotonicity_invariant :
    ∀ (vs : List ℚ) (d : DynState),
      0 ≤ d.Offset → 0 ≤ d.LastRawValue → (∀ v ∈ vs, 0 ≤ v) →
      List.Chain' (fun a b => a ≤ b) ((monoTrace d vs).map Prod.fst) ∧
      List.Chain' (fun a b => a ≤ b) (d.Offset :: (monoTrace d vs).map Prod.snd) ∧
      (monoTrace d vs).map Prod.fst =
        List.zipWith (fun v o => v + o) vs ((monoTrace d vs).map Prod.snd) := by
  intro vs
  induction vs with
  | nil => intro d _ _ _; simp [monoTrace]
  | cons v vs ih =>
    intro d h1 h2 h3
    have hv : 0 ≤ v := h3 v (by simp)
    have hrest : ∀ w ∈ vs, 0 ≤ w := fun w hw => h3 w (by simp [hw])
    have hO : 0 ≤ (enforceMonoStep d v).1.Offset := enforceMonoStep_offset_nonneg d v h1 h2
    have hL : 0 ≤ (enforceMonoStep d v).1.LastRawValue := by
      rw [enforceMonoStep_lrv]; exact hv
    obtain ⟨ih1, ih2, ih3⟩ := ih (enforceMonoStep d v).1 hO hL hrest
    refine ⟨?_, ?_, ?_⟩
    · simp only [monoTrace, List.map_cons]
      rw [List.chain'_cons']
      refine ⟨?_, ih1⟩
      intro b hb
      cases vs with
      | nil => simp [monoTrace] at hb
      | cons w ws =>
        simp only [monoTrace, List.map_cons, List.head?, Option.mem_def,
          Option.some.injEq] at hb
        have hge := enforceMonoStep_out_ge (enforceMonoStep d v).1 w (hrest w (by simp))
        rw [enforceMonoStep_lrv] at hge
        rw [enforceMonoStep_out d v, ← hb]
        exact hge
    · simp only [monoTrace, List.map_cons]
      rw [List.chain'_cons]
      exact ⟨enforceMonoStep_offset_le d v h2, ih2⟩
    · simp only [monoTrace, List.map_cons, List.zipWith_cons_cons]
      rw [enforceMonoStep_out d v, ih3]

theorem C9_monotonicity_invariant_witness :
    List.Chain' (fun a b => a ≤ b) ((monoTrace {} [10, 20, 15, 25]).map Prod.fst) ∧
    List.Chain' (fun a b => a ≤ b)
      (({} : DynState).Offset :: (monoTrace {} [10, 20, 15, 25]).map Prod.snd) ∧
    (monoTrace {} [10, 20, 15, 25]).map Prod.fst =
      List.zipWith (fun v o => v + o) [10, 20, 15, 25]
        ((monoTrace {} [10, 20, 15, 25]).map Prod.snd) :=
  C9_monotonicity_invariant [10, 20, 15, 25] {} (le_refl 0) (le_refl 0)
    (by norm_num)

/-- C10: the key list attached to every produced record is the
lexicographically sorted list of the configured dynamic label names:
it is sorted, a permutation of the configured names, equal to the
LabelsKeys field of every successful parseMetric result, and invariant
under reordering of the configured label mapping. -/
theorem C10_sorted_label_keys (cfg : MetricConfig) :
    List.Sorted (fun a b => a ≤ b) (dynamicLabelsKeys cfg) ∧
    (dynamicLabelsKeys cfg).Perm (cfg.DynamicLabels.map Prod.fst) ∧
    (∀ (fs : FS) (writeOk : Bool) (now : Int) (ps : ParserState) (id : String)
        (v : MqttValue) (psr : ParserState) (m : Metric),
      parseMetric fs writeOk now ps cfg id v = (psr, .ok m) →
      m.LabelsKeys = dynamicLabelsKeys cfg) ∧
    (∀ cfg2 : MetricConfig,
      (cfg.DynamicLabels.map Prod.fst).Perm (cfg2.DynamicLabels.map Prod.fst) →
      dynamicLabelsKeys cfg = dynamicLabelsKeys cfg2) := by
  refine ⟨List.sorted_insertionSort _ _, List.perm_insertionSort _ _, ?_, ?_⟩
  · intro fs writeOk now ps id v psr m h
    unfold parseMetric at h
    split at h
    · simp only [Prod.mk.injEq] at h
      injection h.2
    · split at h <;> split at h <;>
        (dsimp only at h
         split at h <;>
           simp only [Prod.mk.injEq] at h <;>
           first
             | (injection h.2 with h3; rw [← h3])
             | injection h.2)
  · intro cfg2 hperm
    refine List.eq_of_perm_of_sorted ?_ (List.sorted_insertionSort _ _)
      (List.sorted_insertionSort _ _)
    exact (List.perm_insertionSort _ _).trans
      (hperm.trans (List.perm_insertionSort _ _).symm)

theorem C10_sorted_label_keys_witness :
    c10m.LabelsKeys = dynamicLabelsKeys cfgC10 :=
  (C10_sorted_label_keys cfgC10).2.2.1 fsEmpty true 1000 {} "m" (.numV 2)
    (parseMetric fsEmpty true 1000 {} cfgC10 "m" (.numV 2)).1 c10m
    (by
      rw [Prod.mk.injEq]
      refine ⟨rfl, ?_⟩
      norm_num +decide [parseMetric, computeValueMono, computeValue, coerceValue,
        getMetricState, readMetricState, lookupState, setState, evalLabels,
        evalExpressionLabel, runLabelProgram, evalProg, fmtSprint, intReprQ, natReprQ,
        natReprGo, defaultExprEnv, applyErrorValue, dynamicLabelsKeys,
        prometheusValueType, fsEmpty, cfgC10, srcOne, c10m, List.insertionSort,
        List.orderedInsert])

/-- C6: in the merge of a concrete fragment with the block-shared
fragment S and then the default fragment D, every field obeys the merge
contract: a non-zero concrete value wins; a zero concrete value takes
S's value when that is non-zero, else D's value; and a zero value in S
never overwrites the concrete field (field types always agree because
all fragments are values of the single MetricConfig structure). -/
theorem C6_config_merge (c s d : MetricConfig) :
    MergeFieldSpec c.PrometheusName s.PrometheusName d.PrometheusName ""
      ((mergeMetricConfig (mergeMetricConfig c s) d).PrometheusName) ∧
    MergeFieldSpec c.MQTTName s.MQTTName d.MQTTName ""
      ((mergeMetricConfig (mergeMetricConfig c s) d).MQTTName) ∧
    MergeFieldSpec c.PayloadField s.PayloadField d.PayloadField ""
      ((mergeMetricConfig (mergeMetricConfig c s) d).PayloadField) ∧
    MergeFieldSpec c.SensorNameFilter s.SensorNameFilter d.SensorNameFilter ""
      ((mergeMetricConfig (mergeMetricConfig c s) d).SensorNameFilter) ∧
    MergeFieldSpec c.TopicPathFilter s.TopicPathFilter d.TopicPathFilter none
      ((mergeMetricConfig (mergeMetricConfig c s) d).TopicPathFilter) ∧
    MergeFieldSpec c.Help s.Help d.Help ""
      ((mergeMetricConfig (mergeMetricConfig c s) d).Help) ∧
    MergeFieldSpec c.ValueType s.ValueType d.ValueType ""
      ((mergeMetricConfig (mergeMetricConfig c s) d).ValueType) ∧
    MergeFieldSpec c.OmitTimestamp s.OmitTimestamp d.OmitTimestamp false
      ((mergeMetricConfig (mergeMetricConfig c s) d).OmitTimestamp) ∧
    MergeFieldSpec c.RawExpression s.RawExpression d.RawExpression none
      ((mergeMetricConfig (mergeMetricConfig c s) d).RawExpression) ∧
    MergeFieldSpec c.Expression s.Expression d.Expression none
      ((mergeMetricConfig (mergeMetricConfig c s) d).Expression) ∧
    MergeFieldSpec c.ForceMonotonicy s.ForceMonotonicy d.ForceMonotonicy false
      ((mergeMetricConfig (mergeMetricConfig c s) d).ForceMonotonicy) ∧
    MergeFieldSpec c.ConstantLabels s.ConstantLabels d.ConstantLabels []
      ((mergeMetricConfig (mergeMetricConfig c s) d).ConstantLabels) ∧
    MergeFieldSpec c.DynamicLabels s.DynamicLabels d.DynamicLabels []
      ((mergeMetricConfig (mergeMetricConfig c s) d).DynamicLabels) ∧
    MergeFieldSpec c.StringValueMapping s.StringValueMapping d.StringValueMapping none
      ((mergeMetricConfig (mergeMetricConfig c s) d).StringValueMapping) ∧
    MergeFieldSpec c.MQTTValueScale s.MQTTValueScale d.MQTTValueScale 0
      ((mergeMetricConfig (mergeMetricConfig c s) d).MQTTValueScale) ∧
    MergeFieldSpec c.ErrorValue s.ErrorValue d.ErrorValue none
      ((mergeMetricConfig (mergeMetricConfig c s) d).ErrorValue) :=
  ⟨mergeField_cases _ _ _ _, mergeField_cases _ _ _ _, mergeField_cases _ _ _ _,
   mergeField_cases _ _ _ _, mergeField_cases _ _ _ _, mergeField_cases _ _ _ _,
   mergeField_cases _ _ _ _, mergeField_cases _ _ _ _, mergeField_cases _ _ _ _,
   mergeField_cases _ _ _ _, mergeField_cases _ _ _ _, mergeField_cases _ _ _ _,
   mergeField_cases _ _ _ _, mergeField_cases _ _ _ _, mergeField_cases _ _ _ _,
   mergeField_cases _ _ _ _⟩

theorem C6_config_merge_witness :
    (mergeMetricConfig (mergeMetricConfig c6c c6s) metricConfigDefaults).MQTTName = "m" ∧
    (mergeMetricConfig (mergeMetricConfig c6c c6s) metricConfigDefaults).PrometheusName
      = "p" ∧
    (mergeMetricConfig (mergeMetricConfig c6c c6s) metricConfigDefaults).TopicPathFilter
      = some ".*" :=
  ⟨((C6_config_merge c6c c6s metricConfigDefaults).2.1).1 (by decide),
   ((C6_config_merge c6c c6s metricConfigDefaults).1).2.1 rfl (by decide),
   ((C6_config_merge c6c c6s metricConfigDefaults).2.2.2.2.1).2.2.1 rfl rfl⟩

theorem getMetricState_cached (fs : FS) (now : Int) (ps : ParserState) (id : String)
    (ms : MetricState) (h : lookupState ps.states id = some ms) :
    getMetricState fs true now ps id =
      if 60 ≤ now - ms.lastWritten then
        ({ states := setState ps.states id { ms with lastWritten := now } },
         .ok { ms with lastWritten := now })
      else (ps, .ok ms) := by
  unfold getMetricState
  rw [h]
  rfl

theorem getMetricState_fresh (fs : FS) (now : Int) (ps : ParserState) (id : String)
    (h1 : lookupState ps.states id = none) (h2 : fs id = .notExist) :
    ∃ psr st, getMetricState fs true now ps id = (psr, .ok st) ∧
      st.dynamic = {} ∧ st.program = none ∧ st.env = {} := by
  unfold getMetricState readMetricState
  rw [h1, h2]
  dsimp only
  split
  · exact ⟨_, _, rfl, rfl, rfl, rfl⟩
  · exact ⟨_, _, rfl, rfl, rfl, rfl⟩

theorem getMetricState_openErr (fs : FS) (writeOk : Bool) (now : Int) (ps : ParserState)
    (id : String) (h1 : lookupState ps.states id = none) (h2 : fs id = .openError) :
    getMetricState fs writeOk now ps id = (ps, .error ("failed to read file " ++ id)) := by
  unfold getMetricState readMetricState
  rw [h1, h2]

theorem getMetricState_writeFail (fs : FS) (now : Int) (ps : ParserState) (id : String)
    (ms : MetricState) (h1 : lookupState ps.states id = some ms)
    (h2 : 60 ≤ now - ms.lastWritten) :
    getMetricState fs false now ps id = (ps, .error ("failed to write file " ++ id)) := by
  unfold getMetricState
  rw [h1]
  dsimp only
  rw [if_pos h2]
  simp

theorem getMetricState_freshWriteFail (fs : FS) (now : Int) (ps : ParserState) (id : String)
    (h1 : lookupState ps.states id = none) (h2 : fs id = .notExist) (h3 : 60 ≤ now) :
    getMetricState fs false now ps id =
      ({ states := setState ps.states id {} }, .error ("failed to write file " ++ id)) := by
  unfold getMetricState readMetricState
  rw [h1, h2]
  dsimp only
  rw [if_pos (by simpa using h3)]
  simp

theorem enforceMonotonicy_stateErr (fs : FS) (writeOk : Bool) (now : Int)
    (ps : ParserState) (id : String) (v : ℚ) (P : ParserState) (e : String)
    (h : getMetricState fs writeOk now ps id = (P, .error e)) :
    enforceMonotonicy fs writeOk now ps id v = (P, .error e) := by
  unfold enforceMonotonicy
  rw [h]

theorem computeValue_raw (fs : FS) (writeOk : Bool) (now : Int) (ps : ParserState)
    (cfg : MetricConfig) (id : String) (raw : MqttValue) (src : ExprSrc)
    (h : cfg.RawExpression = some src) :
    computeValue fs writeOk now ps cfg id raw =
      ((evalExpressionValue fs writeOk now ps id src raw 0).1,
       applyErrorValue cfg.ErrorValue (evalExpressionValue fs writeOk now ps id src raw 0).2) := by
  unfold computeValue
  rw [h]

theorem computeValue_num (fs : FS) (writeOk : Bool) (now : Int) (ps : ParserState)
    (cfg : MetricConfig) (id : String) (q : ℚ)
    (h1 : cfg.RawExpression = none) (h2 : cfg.Expression = none) :
    computeValue fs writeOk now ps cfg id (.numV q) = (ps, .ok q) := by
  unfold computeValue coerceValue
  rw [h1]
  dsimp only
  rw [h2]

theorem computeValueMono_noMono (fs : FS) (writeOk : Bool) (now : Int) (ps : ParserState)
    (cfg : MetricConfig) (id : String) (v : MqttValue)
    (h : cfg.ForceMonotonicy = false) :
    computeValueMono fs writeOk now ps cfg id v = computeValue fs writeOk now ps cfg id v := by
  rcases hcv : computeValue fs writeOk now ps cfg id v with ⟨ps', r⟩
  cases r <;> simp [computeValueMono, hcv, h]

theorem computeValueMono_mono (fs : FS) (writeOk : Bool) (now : Int) (ps : ParserState)
    (cfg : MetricConfig) (id : String) (v : MqttValue) (ps' : ParserState) (q : ℚ)
    (h1 : computeValue fs writeOk now ps cfg id v = (ps', .ok q))
    (h2 : cfg.ForceMonotonicy = true) :
    computeValueMono fs writeOk now ps cfg id v =
      ((enforceMonotonicy fs writeOk now ps' id q).1,
       applyErrorValue cfg.ErrorValue (enforceMonotonicy fs writeOk now ps' id q).2) := by
  unfold computeValueMono
  rw [h1]
  dsimp only
  rw [h2]
  simp

theorem parseMetric_err (fs : FS) (writeOk : Bool) (now : Int) (ps : ParserState)
    (cfg : MetricConfig) (id : String) (v : MqttValue) (P : ParserState) (e : String)
    (h : computeValueMono fs writeOk now ps cfg id v = (P, .error e)) :
    parseMetric fs writeOk now ps cfg id v = (P, .error e) := by
  unfold parseMetric
  rw [h]

theorem parseMetric_ok (fs : FS) (writeOk : Bool) (now : Int) (ps : ParserState)
    (cfg : MetricConfig) (id : String) (v : MqttValue) (P : ParserState) (mv : ℚ)
    (h : computeValueMono fs writeOk now ps cfg id v = (P, .ok mv))
    (hs : cfg.MQTTValueScale = 0) (hl : cfg.DynamicLabels = []) :
    parseMetric fs writeOk now ps cfg id v =
      (P, .ok { DescriptionName := cfg.PrometheusName, DescriptionHelp := cfg.Help,
                Value := mv, ValueType := prometheusValueType cfg,
                IngestTime := if cfg.OmitTimestamp then 0 else now,
                Labels := [], LabelsKeys := [] }) := by
  unfold parseMetric
  rw [h]
  dsimp only
  rw [hs, hl]
  simp [evalLabels, dynamicLabelsKeys, hl, List.insertionSort]

theorem parseMetric_labelErr (fs : FS) (writeOk : Bool) (now : Int) (ps : ParserState)
    (cfg : MetricConfig) (id : String) (v : MqttValue) (P S : ParserState)
    (mv : ℚ) (e : String)
    (h : computeValueMono fs writeOk now ps cfg id v = (P, .ok mv))
    (hs : cfg.MQTTValueScale = 0)
    (hl : evalLabels fs writeOk now P id cfg.DynamicLabels v mv = (S, .error e)) :
    parseMetric fs writeOk now ps cfg id v = (S, .error e) := by
  unfold parseMetric
  rw [h]
  dsimp only
  rw [hs]
  rw [if_neg (by norm_num)]
  rw [hl]

theorem evalExprValue_freshFail (fs : FS) (now : Int) (ps : ParserState) (id : String)
    (src : ExprSrc) (raw : MqttValue) (v : ℚ)
    (h3 : lookupState ps.states id = none) (h4 : fs id = .notExist) :
    (src.compileOk = false →
      ∃ S, evalExpressionValue fs true now ps id src raw v =
        (S, .error "failed to compile expression")) ∧
    (src.compileOk = true → src.prog = .failRun →
      ∃ S, evalExpressionValue fs true now ps id src raw v =
        (S, .error "failed to evaluate expression")) := by
  obtain ⟨psr, st, hg, hdyn, hprog, henv⟩ := getMetricState_fresh fs now ps id h3 h4
  constructor
  · intro h2
    unfold evalExpressionValue
    rw [hg]
    dsimp only
    rw [hprog, h2]
    exact ⟨_, rfl⟩
  · intro h2 h5
    unfold evalExpressionValue
    rw [hg]
    dsimp only
    rw [hprog, h2]
    dsimp only
    unfold runValueProgram
    rw [h5]
    exact ⟨_, rfl⟩

theorem evalExprLabel_freshFail (fs : FS) (now : Int) (ps : ParserState)
    (metricID label : String) (src : ExprSrc) (raw : MqttValue) (v : ℚ)
    (h3 : lookupState ps.states (label ++ "@" ++ metricID) = none)
    (h4 : fs (label ++ "@" ++ metricID) = .notExist)
    (h2 : src.compileOk = true) (h5 : src.prog = .failRun) :
    ∃ S, evalExpressionLabel fs true now ps metricID label src raw v =
      (S, .error "failed to evaluate dynamic label expression") := by
  obtain ⟨psr, st, hg, hdyn, hprog, henv⟩ :=
    getMetricState_fresh fs now ps (label ++ "@" ++ metricID) h3 h4
  unfold evalExpressionLabel
  dsimp only
  rw [hg]
  dsimp only
  rw [hprog, h2]
  dsimp only
  unfold runLabelProgram
  rw [h5]
  exact ⟨_, rfl⟩

theorem evalLabels_firstErr (fs : FS) (writeOk : Bool) (now : Int) (ps : ParserState)
    (metricID k : String) (src : ExprSrc) (rest : List (String × ExprSrc))
    (raw : MqttValue) (mv : ℚ) (S : ParserState) (e : String)
    (h : evalExpressionLabel fs writeOk now ps metricID k src raw mv = (S, .error e)) :
    evalLabels fs writeOk now ps metricID ((k, src) :: rest) raw mv = (S, .error e) := by
  unfold evalLabels
  rw [h]

theorem validateMetric_both (m : MetricConfig)
    (h1 : m.Expression.isSome) (h2 : m.RawExpression.isSome) :
    ∃ e, validateMetric m = .error e := by
  unfold validateMetric
  split
  · split
    · split
      · exact ⟨_, rfl⟩
      · simp only [validateMetricRest, h1, h2, and_self, if_true]
        exact ⟨_, rfl⟩
    · simp only [validateMetricRest, h1, h2, and_self, if_true]
      exact ⟨_, rfl⟩
  · simp only [validateMetricRest, h1, h2, and_self, if_true]
    exact ⟨_, rfl⟩

theorem validateMetrics_both (l : List MetricConfig) (m : MetricConfig) (hm : m ∈ l)
    (h1 : m.Expression.isSome) (h2 : m.RawExpression.isSome) :
    ∃ e, validateMetrics l = .error e := by
  induction l with
  | nil => cases hm
  | cons a l ih =>
    rcases List.mem_cons.mp hm with heq | hm'
    · obtain ⟨e, he⟩ := validateMetric_both a (heq ▸ h1) (heq ▸ h2)
      exact ⟨e, by simp [validateMetrics, he]⟩
    · cases hva : validateMetric a with
      | error e => exact ⟨e, by simp [validateMetrics, hva]⟩
      | ok a' =>
        obtain ⟨e, he⟩ := ih hm'
        exact ⟨e, by simp [validateMetrics, hva, he]⟩

theorem validateBlocks_both (bs : List BlockConfig) (b : BlockConfig) (m : MetricConfig)
    (hb : b ∈ bs) (hm : m ∈ b.Metrics)
    (h1 : m.Expression.isSome) (h2 : m.RawExpression.isSome) :
    ∃ e, validateBlocks bs = .error e := by
  induction bs with
  | nil => cases hb
  | cons a bs ih =>
    rcases List.mem_cons.mp hb with heq | hb'
    · obtain ⟨e, he⟩ := validateMetrics_both a.Metrics m (heq ▸ hm) h1 h2
      exact ⟨e, by simp [validateBlocks, he]⟩
    · cases hva : validateMetrics a.Metrics with
      | error e => exact ⟨e, by simp [validateBlocks, hva]⟩
      | ok ms' =>
        obtain ⟨e, he⟩ := ih hb'
        exact ⟨e, by simp [validateBlocks, hva, he]⟩

/-- C2 counterexample: the claim that raw_value is rebound to the
current input on every evaluation fails on the second evaluation of a
value expression: with the program raw_value already compiled, feeding
the input 7 still evaluates against the stored binding 5, and the stored
environment still binds raw_value to 5 although the current input is 7. -/
theorem C2_counterexample :
    c2e2.2 = .ok 5 ∧
    (lookupState c2e2.1.states "m").map (fun s => s.env.raw_value) = some (.numV 5) ∧
    MqttValue.numV 5 ≠ MqttValue.numV 7 :=
  ⟨rfl, rfl, by decide⟩

/-- C2 amended: for a value expression the environment bindings are
installed only when the program is compiled, on the first evaluation of
the rule: with a program already cached, the evaluation runs against the
stored environment unchanged, ignoring the current inputs; only when no
program is cached yet are raw_value, value and last_value bound to the
current evaluation's input, working value, and the stored
LastExprValue. -/
theorem C2_value_env_bound_at_compile_only (fs : FS) (now : Int) (ps : ParserState)
    (id : String) (src : ExprSrc) (raw : MqttValue) (value : ℚ) (ms : MetricState)
    (h : lookupState ps.states id = some ms) :
    (∀ p, ms.program = some p →
      (evalExpressionValue fs true now ps id src raw value).2 =
        (match evalProg p ms.env with
         | some q => Except.ok q
         | none => Except.error "failed to evaluate expression") ∧
      (lookupState (evalExpressionValue fs true now ps id src raw value).1.states id).map
        MetricState.env = some ms.env) ∧
    (ms.program = none → src.compileOk = true →
      (lookupState (evalExpressionValue fs true now ps id src raw value).1.states id).map
        (fun s => s.env.raw_value) = some raw ∧
      (lookupState (evalExpressionValue fs true now ps id src raw value).1.states id).map
        (fun s => s.env.value) = some value ∧
      (lookupState (evalExpressionValue fs true now ps id src raw value).1.states id).map
        (fun s => s.env.last_value) = some ms.dynamic.LastExprValue) := by
  constructor
  · intro p hp
    unfold evalExpressionValue
    rw [getMetricState_cached fs now ps id ms h]
    by_cases h60 : 60 ≤ now - ms.lastWritten
    · rw [if_pos h60]
      dsimp only
      rw [hp]
      unfold runValueProgram
      dsimp only
      cases hev : evalProg p ms.env <;>
        simp [lookup_setState, hev]
    · rw [if_neg h60]
      dsimp only
      rw [hp]
      unfold runValueProgram
      cases hev : evalProg p ms.env <;>
        simp [lookup_setState, hev]
  · intro hp hc
    unfold evalExpressionValue
    rw [getMetricState_cached fs now ps id ms h]
    by_cases h60 : 60 ≤ now - ms.lastWritten
    · rw [if_pos h60]
      dsimp only
      rw [hp, hc]
      unfold runValueProgram
      dsimp only
      cases hev : evalProg src.prog _ <;>
        simp [lookup_setState, hev]
    · rw [if_neg h60]
      dsimp only
      rw [hp, hc]
      unfold runValueProgram
      dsimp only
      cases hev : evalProg src.prog _ <;>
        simp [lookup_setState, hev]

theorem C2_value_env_bound_at_compile_only_witness :
    (evalExpressionValue fsEmpty true 1000 c2ps "m" srcRawVar (.numV 7) 0).2 =
      Except.ok 5 :=
  ((C2_value_env_bound_at_compile_only fsEmpty 1000 c2ps "m" srcRawVar (.numV 7) 0
      c2ms rfl).1 .varRawValue rfl).1

/-- C3 counterexample: with errorValue configured, a compile failure of
the value expression is not surfaced: the pipeline succeeds and returns
the fallback value -1. -/
theorem C3_counterexample :
    (parseMetric fsEmpty true 1000 {} cfgC3 "m" (.numV 10)).2 =
      .ok { Value := -1, IngestTime := 1000 } :=
  rfl

/-- C3 amended: a compile failure of a value expression is a hard error
only when no errorValue is configured; with an errorValue it is masked
exactly like a runtime failure, the fallback becoming the working
value. -/
theorem C3_compile_failure_maskable (fs : FS) (now : Int) (ps : ParserState)
    (cfg : MetricConfig) (id : String) (raw : MqttValue) (src : ExprSrc)
    (h1 : cfg.RawExpression = some src) (h2 : src.compileOk = false)
    (h3 : lookupState ps.states id = none) (h4 : fs id = .notExist) :
    (cfg.ErrorValue = none →
      (parseMetric fs true now ps cfg id raw).2 =
        .error "failed to compile expression") ∧
    (∀ ev, cfg.ErrorValue = some ev → cfg.ForceMonotonicy = false →
      cfg.MQTTValueScale = 0 → cfg.DynamicLabels = [] →
      (parseMetric fs true now ps cfg id raw).2 =
        .ok { DescriptionName := cfg.PrometheusName, DescriptionHelp := cfg.Help,
              Value := ev, ValueType := prometheusValueType cfg,
              IngestTime := if cfg.OmitTimestamp then 0 else now,
              Labels := [], LabelsKeys := [] }) := by
  obtain ⟨S, hS⟩ :=
    (evalExprValue_freshFail fs now ps id src raw 0 h3 h4).1 h2
  have hcv : computeValue fs true now ps cfg id raw =
      (S, applyErrorValue cfg.ErrorValue (.error "failed to compile expression")) := by
    rw [computeValue_raw fs true now ps cfg id raw src h1, hS]
  constructor
  · intro hev
    have hmono : computeValueMono fs true now ps cfg id raw =
        (S, .error "failed to compile expression") := by
      unfold computeValueMono
      rw [hcv, hev]
      rfl
    rw [parseMetric_err fs true now ps cfg id raw S _ hmono]
  · intro ev hev hf hs hl
    have hmono : computeValueMono fs true now ps cfg id raw = (S, .ok ev) := by
      rw [computeValueMono_noMono fs true now ps cfg id raw hf, hcv, hev]
      rfl
    rw [parseMetric_ok fs true now ps cfg id raw S ev hmono hs hl]

theorem C3_compile_failure_maskable_witness :
    (parseMetric fsEmpty true 1000 {} cfgC3w "m" (.numV 10)).2 =
      .ok { DescriptionName := cfgC3w.PrometheusName, DescriptionHelp := cfgC3w.Help,
            Value := 7, ValueType := prometheusValueType cfgC3w,
            IngestTime := if cfgC3w.OmitTimestamp then 0 else 1000,
            Labels := [], LabelsKeys := [] } :=
  (C3_compile_failure_maskable fsEmpty 1000 {} cfgC3w "m" (.numV 10) srcNoCompile
      rfl rfl rfl rfl).2 7 rfl rfl rfl rfl

/-- C4 counterexample: a failing dynamic-label expression aborts the
pipeline with an error even though errorValue is configured on the
rule. -/
theorem C4_counterexample :
    (parseMetric fsEmpty true 1000 {} cfgC4 "m" (.numV 3)).2 =
      .error "failed to evaluate dynamic label expression" :=
  rfl

/-- C4 amended: with an errorValue configured, failures in the
value-derivation and monotonicity steps are swallowed and the fallback
is substituted as the working value, but a failure in the dynamic-label
step always aborts the pipeline with an error, errorValue
notwithstanding. -/
theorem C4_label_failure_not_maskable :
    (∀ (fs : FS) (now : Int) (ps : ParserState) (cfg : MetricConfig) (id : String)
        (raw : MqttValue) (src : ExprSrc) (ev : ℚ),
      cfg.RawExpression = some src → src.compileOk = true → src.prog = .failRun →
      cfg.ErrorValue = some ev → cfg.ForceMonotonicy = false →
      cfg.MQTTValueScale = 0 → cfg.DynamicLabels = [] →
      lookupState ps.states id = none → fs id = .notExist →
      (parseMetric fs true now ps cfg id raw).2 =
        .ok { DescriptionName := cfg.PrometheusName, DescriptionHelp := cfg.Help,
              Value := ev, ValueType := prometheusValueType cfg,
              IngestTime := if cfg.OmitTimestamp then 0 else now,
              Labels := [], LabelsKeys := [] }) ∧
    (∀ (fs : FS) (now : Int) (ps : ParserState) (cfg : MetricConfig) (id : String)
        (q ev : ℚ),
      cfg.RawExpression = none → cfg.Expression = none →
      cfg.ForceMonotonicy = true → cfg.ErrorValue = some ev →
      cfg.MQTTValueScale = 0 → cfg.DynamicLabels = [] →
      lookupState ps.states id = none → fs id = .openError →
      (parseMetric fs true now ps cfg id (.numV q)).2 =
        .ok { DescriptionName := cfg.PrometheusName, DescriptionHelp := cfg.Help,
              Value := ev, ValueType := prometheusValueType cfg,
              IngestTime := if cfg.OmitTimestamp then 0 else now,
              Labels := [], LabelsKeys := [] }) ∧
    (∀ (fs : FS) (now : Int) (ps : ParserState) (cfg : MetricConfig) (id : String)
        (q ev : ℚ) (k : String) (src : ExprSrc),
      cfg.RawExpression = none → cfg.Expression = none →
      cfg.ForceMonotonicy = false → cfg.ErrorValue = some ev →
      cfg.MQTTValueScale = 0 → cfg.DynamicLabels = [(k, src)] →
      src.compileOk = true → src.prog = .failRun →
      lookupState ps.states (k ++ "@" ++ id) = none →
      fs (k ++ "@" ++ id) = .notExist →
      (parseMetric fs true now ps cfg id (.numV q)).2 =
        .error "failed to evaluate dynamic label expression") := by
  refine ⟨?_, ?_, ?_⟩
  · intro fs now ps cfg id raw src ev h1 h2 h5 hev hf hs hl h3 h4
    obtain ⟨S, hS⟩ :=
      (evalExprValue_freshFail fs now ps id src raw 0 h3 h4).2 h2 h5
    have hmono : computeValueMono fs true now ps cfg id raw = (S, .ok ev) := by
      rw [computeValueMono_noMono fs true now ps cfg id raw hf,
        computeValue_raw fs true now ps cfg id raw src h1, hS, hev]
      rfl
    rw [parseMetric_ok fs true now ps cfg id raw S ev hmono hs hl]
  · intro fs now ps cfg id q ev h1 h2 hf hev hs hl h3 h4
    have hcv := computeValue_num fs true now ps cfg id q h1 h2
    have hge := getMetricState_openErr fs true now ps id h3 h4
    have hmono : computeValueMono fs true now ps cfg id (.numV q) = (ps, .ok ev) := by
      rw [computeValueMono_mono fs true now ps cfg id (.numV q) ps q hcv hf,
        enforceMonotonicy_stateErr fs true now ps id q ps _ hge, hev]
      rfl
    rw [parseMetric_ok fs true now ps cfg id (.numV q) ps ev hmono hs hl]
  · intro fs now ps cfg id q ev k src h1 h2 hf hev hs hl h5 h6 h3 h4
    have hcv := computeValue_num fs true now ps cfg id q h1 h2
    have hmono : computeValueMono fs true now ps cfg id (.numV q) = (ps, .ok q) := by
      rw [computeValueMono_noMono fs true now ps cfg id (.numV q) hf, hcv]
    obtain ⟨S, hS⟩ :=
      evalExprLabel_freshFail fs now ps id k src (.numV q) q h3 h4 h5 h6
    have hlab : evalLabels fs true now ps id cfg.DynamicLabels (.numV q) q =
        (S, .error "failed to evaluate dynamic label expression") := by
      rw [hl]
      exact evalLabels_firstErr fs true now ps id k src [] (.numV q) q S _ hS
    rw [parseMetric_labelErr fs true now ps cfg id (.numV q) ps S q _ hmono hs hlab]

theorem C4_label_failure_not_maskable_witness :
    (parseMetric fsEmpty true 1000 {} cfgC4i "m" (.numV 1)).2 =
      .ok { DescriptionName := cfgC4i.PrometheusName, DescriptionHelp := cfgC4i.Help,
            Value := 2, ValueType := prometheusValueType cfgC4i,
            IngestTime := if cfgC4i.OmitTimestamp then 0 else 1000,
            Labels := [], LabelsKeys := [] } ∧
    (parseMetric fsOpenErr true 1000 {} cfgC4ii "m" (.numV 1)).2 =
      .ok { DescriptionName := cfgC4ii.PrometheusName, DescriptionHelp := cfgC4ii.Help,
            Value := 3, ValueType := prometheusValueType cfgC4ii,
            IngestTime := if cfgC4ii.OmitTimestamp then 0 else 1000,
            Labels := [], LabelsKeys := [] } ∧
    (parseMetric fsEmpty true 1000 {} cfgC4iii "m" (.numV 1)).2 =
      .error "failed to evaluate dynamic label expression" :=
  ⟨C4_label_failure_not_maskable.1 fsEmpty 1000 {} cfgC4i "m" (.numV 1) srcFailRun 2
      rfl rfl rfl rfl rfl rfl rfl rfl rfl,
   C4_label_failure_not_maskable.2.1 fsOpenErr 1000 {} cfgC4ii "m" 1 3
      rfl rfl rfl rfl rfl rfl rfl rfl,
   C4_label_failure_not_maskable.2.2 fsEmpty 1000 {} cfgC4iii "m" 1 4 "k" srcFailRun
      rfl rfl rfl rfl rfl rfl rfl rfl rfl rfl⟩

/-- C5 counterexample: an unreadable (not merely missing) state file
fails the pipeline, and a state-write failure aborts the pipeline
instead of returning the computed metric. -/
theorem C5_counterexample :
    (parseMetric fsOpenErr true 1000 {} cfgMono "m" (.numV 1)).2 =
      .error "failed to read file m" ∧
    (parseMetric fsEmpty false 1000 {} cfgMono "m" (.numV 1)).2 =
      .error "failed to write file m" :=
  ⟨rfl, rfl⟩

/-- C5 amended: only a missing state file is treated as no prior state;
a state file that exists but cannot be opened is an error, and a failure
to write the state file back makes getMetricState fail, so the
monotonicity step fails and, with no errorValue, the pipeline aborts
instead of returning the computed metric. -/
theorem C5_state_io_failures (fs : FS) (now : Int) (ps : ParserState) (id : String) :
    (fs id = .notExist → readMetricState fs now id = .ok {}) ∧
    (fs id = .openError →
      readMetricState fs now id = .error ("failed to read file " ++ id)) ∧
    (∀ ms, lookupState ps.states id = some ms → 60 ≤ now - ms.lastWritten →
      getMetricState fs false now ps id = (ps, .error ("failed to write file " ++ id))) ∧
    (∀ (cfg : MetricConfig) (q : ℚ),
      cfg.RawExpression = none → cfg.Expression = none →
      cfg.ForceMonotonicy = true → cfg.ErrorValue = none →
      lookupState ps.states id = none → fs id = .openError →
      (parseMetric fs true now ps cfg id (.numV q)).2 =
        .error ("failed to read file " ++ id)) ∧
    (∀ (cfg : MetricConfig) (q : ℚ),
      cfg.RawExpression = none → cfg.Expression = none →
      cfg.ForceMonotonicy = true → cfg.ErrorValue = none →
      lookupState ps.states id = none → fs id = .notExist → 60 ≤ now →
      (parseMetric fs false now ps cfg id (.numV q)).2 =
        .error ("failed to write file " ++ id)) := by
  refine ⟨?_, ?_, ?_, ?_, ?_⟩
  · intro h; unfold readMetricState; rw [h]
  · intro h; unfold readMetricState; rw [h]
  · intro ms h1 h2
    exact getMetricState_writeFail fs now ps id ms h1 h2
  · intro cfg q h1 h2 hf hev h3 h4
    have hcv := computeValue_num fs true now ps cfg id q h1 h2
    have hge := getMetricState_openErr fs true now ps id h3 h4
    have hmono : computeValueMono fs true now ps cfg id (.numV q) =
        (ps, .error ("failed to read file " ++ id)) := by
      rw [computeValueMono_mono fs true now ps cfg id (.numV q) ps q hcv hf,
        enforceMonotonicy_stateErr fs true now ps id q ps _ hge, hev]
      rfl
    rw [parseMetric_err fs true now ps cfg id (.numV q) ps _ hmono]
  · intro cfg q h1 h2 hf hev h3 h4 h60
    have hcv := computeValue_num fs false now ps cfg id q h1 h2
    have hge := getMetricState_freshWriteFail fs now ps id h3 h4 h60
    have hmono : computeValueMono fs false now ps cfg id (.numV q) =
        ({ states := setState ps.states id {} },
         .error ("failed to write file " ++ id)) := by
      rw [computeValueMono_mono fs false now ps cfg id (.numV q) ps q hcv hf,
        enforceMonotonicy_stateErr fs false now ps id q _ _ hge, hev]
      rfl
    rw [parseMetric_err fs false now ps cfg id (.numV q) _ _ hmono]

theorem C5_state_io_failures_witness :
    readMetricState fsEmpty 1000 "m" = .ok {} ∧
    readMetricState fsOpenErr 1000 "m" = .error ("failed to read file " ++ "m") ∧
    getMetricState fsEmpty false 1000 c5ps "m" =
      (c5ps, .error ("failed to write file " ++ "m")) ∧
    (parseMetric fsOpenErr true 1000 {} cfgMono "m" (.numV 1)).2 =
      .error ("failed to read file " ++ "m") ∧
    (parseMetric fsEmpty false 1000 {} cfgMono "m" (.numV 1)).2 =
      .error ("failed to write file " ++ "m") :=
  ⟨(C5_state_io_failures fsEmpty 1000 {} "m").1 rfl,
   (C5_state_io_failures fsOpenErr 1000 {} "m").2.1 rfl,
   (C5_state_io_failures fsEmpty 1000 c5ps "m").2.2.1 {} rfl (by norm_num),
   (C5_state_io_failures fsOpenErr 1000 {} "m").2.2.2.1 cfgMono 1 rfl rfl rfl rfl rfl rfl,
   (C5_state_io_failures fsEmpty 1000 {} "m").2.2.2.2 cfgMono 1 rfl rfl rfl rfl rfl rfl
     (by norm_num)⟩

/-- C7: a configuration in which any rule carries both expression and
raw_expression after the merge fails at configuration-resolution time:
the load returns an error and no rule set, and the mutual-exclusivity
check itself produces an error naming the offending rule. -/
theorem C7_mutual_exclusivity (blocks : List BlockConfig) (b : BlockConfig)
    (m : MetricConfig) (hb : b ∈ mergeBlocks blocks) (hm : m ∈ b.Metrics)
    (h1 : m.Expression.isSome) (h2 : m.RawExpression.isSome) :
    (∃ e, loadMetricsConfig blocks = .error e) ∧
    validateMetricRest m =
      .error ("metric " ++ m.MQTTName ++ "/" ++ m.PrometheusName ++
        ": expression and raw_expression are mutually exclusive.") :=
  ⟨validateBlocks_both (mergeBlocks blocks) b m hb hm h1 h2,
   by simp [validateMetricRest, h1, h2]⟩

theorem C7_mutual_exclusivity_witness :
    (loadMetricsConfig blocksC7).toOption = none := by
  obtain ⟨e, he⟩ := C7_mutual_exclusivity blocksC7
    { SharedValues := {},
      Metrics := [{ PrometheusName := "p1", MQTTName := "m1",
                    Expression := some srcOne, RawExpression := some srcOne,
                    TopicPathFilter := some ".*" }] }
    { PrometheusName := "p1", MQTTName := "m1",
      Expression := some srcOne, RawExpression := some srcOne,
      TopicPathFilter := some ".*" }
    (by decide) (by decide) (by decide) (by decide) |>.1
  rw [he]
  rfl

end Mqtt2Prom
